import Mathlib

/-!
Shallow embedding of the balance-aggregation script `chain-balance.py`
from taproot-assets-python-tools, together with theorems about its
identifier classification, on-chain and off-chain aggregation, external
call counts, and final totals report.

JSON objects returned by the two external CLI tools are modelled as Lean
structures whose fields are wrapped in `Option` to represent absent keys;
Python `dict.get` defaults are rendered with `Option.getD`, Python
truthiness tests on optional values are rendered by pattern matching, and
Python `None == s` / `None in l` comparisons with strings are rendered by
the helpers `optStrEq` and `optStrMem`.
-/

/-- Group-key information of a registry record (the `asset_group` object). -/
structure AssetGroup where
  raw_group_key : Option String
  tweaked_group_key : Option String
deriving DecidableEq

/-- A record from the asset-registry listing (`tapcli assets list`).
`asset_id` models the nested `asset_genesis.asset_id`. -/
structure AssetRecord where
  asset_id : Option String
  asset_group : Option AssetGroup
  amount : Option Int
  script_key_is_local : Option Bool
deriving DecidableEq

/-- An embedded per-asset entry of a channel
(`custom_channel_data.assets`); `asset_id` models the nested
`asset_utxo.asset_genesis.asset_id`. -/
structure AssetEntry where
  asset_id : Option String
  capacity : Option Int
  local_balance : Option Int
  remote_balance : Option Int
deriving DecidableEq

/-- The `custom_channel_data` object of a channel; a missing `assets` key
is the empty list. -/
structure CustomChannelData where
  assets : List AssetEntry
deriving DecidableEq

/-- A record from the channel listing (`lncli listchannels`). -/
structure ChannelRecord where
  custom_channel_data : Option CustomChannelData
deriving DecidableEq

/-- Python comparison `o == s` where `o` is an optional string field:
`None == s` is `False`. -/
def optStrEq (o : Option String) (s : String) : Bool :=
  match o with
  | some t => t == s
  | none => false

/-- Python membership `o in l` where `o` is an optional string and `l` a
list of strings: `None in l` is `False`. -/
def optStrMem (o : Option String) (l : List String) : Bool :=
  match o with
  | some t => l.contains t
  | none => false

/-- Body of the loop of `get_onchain_balance` (lines 43-57 of the
source): one registry record either adds its `amount` (default 0) to the
running total, when `script_key_is_local` holds and one of the three key
fields equals the identifier, or leaves the total unchanged. -/
def onchain_asset_step (identifier : String) (total_balance : Int)
    (asset : AssetRecord) : Int :=
  let asset_id := asset.asset_id
  let raw_group_key := asset.asset_group.bind AssetGroup.raw_group_key
  let tweaked_group_key := asset.asset_group.bind AssetGroup.tweaked_group_key
  let script_key_is_local := asset.script_key_is_local.getD false
  if script_key_is_local
      && (optStrEq asset_id identifier || optStrEq raw_group_key identifier
          || optStrEq tweaked_group_key identifier) then
    total_balance + asset.amount.getD 0
  else
    total_balance

/-- `get_onchain_balance`: sums matching locally-owned amounts of one
registry listing for a single identifier (source lines 23-66; the
`tapcli assets list` invocation is the `registry` argument). -/
def get_onchain_balance (registry : List AssetRecord) (identifier : String) : Int :=
  registry.foldl (onchain_asset_step identifier) 0

/-- The main program's on-chain accumulation loop (source lines 188-191):
one `get_onchain_balance` call, hence one registry listing call, per
entry of `asset_ids`. -/
def simple_balance (registry : List AssetRecord) (asset_ids : List String) : Int :=
  asset_ids.foldl (fun acc asset_id => acc + get_onchain_balance registry asset_id) 0

/-- Body of the inner loop of `get_off_chain_balances` (source lines
93-106): an embedded asset entry adds its `capacity`, `local_balance`
and `remote_balance` (each defaulting to 0) to the three running totals
when its asset id is among `identifiers_to_check`. -/
def asset_entry_step (identifiers_to_check : List String)
    (totals : Int × Int × Int) (asset : AssetEntry) : Int × Int × Int :=
  if optStrMem asset.asset_id identifiers_to_check then
    (totals.1 + asset.capacity.getD 0,
     totals.2.1 + asset.local_balance.getD 0,
     totals.2.2 + asset.remote_balance.getD 0)
  else
    totals

/-- Body of the outer loop of `get_off_chain_balances` (source lines
86-106): a channel with no `custom_channel_data` is skipped, otherwise
its embedded asset entries are folded. -/
def channel_step (identifiers_to_check : List String)
    (totals : Int × Int × Int) (channel : ChannelRecord) : Int × Int × Int :=
  match channel.custom_channel_data with
  | none => totals
  | some custom_data => custom_data.assets.foldl (asset_entry_step identifiers_to_check) totals

/-- The channel fold of `get_off_chain_balances` starting from zero
totals, for an already-resolved list of identifiers to check. -/
def offchainLoop (channels : List ChannelRecord)
    (identifiers_to_check : List String) : Int × Int × Int :=
  channels.foldl (channel_step identifiers_to_check) (0, 0, 0)

/-- `get_off_chain_balances` (source lines 69-112): resolves
`identifiers_to_check` from the id type, then folds the channel listing
(the `lncli listchannels` invocation is the `channels` argument). -/
def get_off_chain_balances (channels : List ChannelRecord) (identifier : String)
    (id_type : String) (asset_ids : List String) : Int × Int × Int :=
  let identifiers_to_check := if id_type = "asset_id" then [identifier] else asset_ids
  offchainLoop channels identifiers_to_check

/-- `list_assets` loop body (source lines 135-147): a record with a
truthy `asset_group` whose raw or tweaked group key equals the group key
appends its (truthy) asset id to the accumulator. -/
def list_assets_step (group_key : String) (asset_ids : List String)
    (asset : AssetRecord) : List String :=
  match asset.asset_group with
  | none => asset_ids
  | some g =>
    if optStrEq g.raw_group_key group_key || optStrEq g.tweaked_group_key group_key then
      match asset.asset_id with
      | some aid => if aid = "" then asset_ids else asset_ids ++ [aid]
      | none => asset_ids
    else
      asset_ids

/-- `list_assets` (source lines 115-150): collects the asset ids of the
registry records matching a group key, in registry order. -/
def list_assets (registry : List AssetRecord) (group_key : String) : List String :=
  registry.foldl (list_assets_step group_key) []

/-- The totals a run prints and combines (source lines 206-209). -/
structure RunTotals where
  total_on_chain_balance : Int
  total_offchain_funds : Int
  total_off_chain_local_balance : Int
  total_off_chain_remote_balance : Int
  total_balance : Int
deriving DecidableEq

/-- The fatal identifier-validation error of the pipeline (source lines
174-178): invalid identifier length, diagnostic plus exit status 1. -/
inductive PipelineError where
  | invalidIdentifier
deriving DecidableEq

instance {ε α : Type} [DecidableEq ε] [DecidableEq α] : DecidableEq (Except ε α) := fun a b =>
  match a, b with
  | Except.error e1, Except.error e2 =>
    if h : e1 = e2 then isTrue (by rw [h]) else isFalse (fun hc => by cases hc; exact h rfl)
  | Except.error _, Except.ok _ => isFalse (fun hc => by cases hc)
  | Except.ok _, Except.error _ => isFalse (fun hc => by cases hc)
  | Except.ok a1, Except.ok a2 =>
    if h : a1 = a2 then isTrue (by rw [h]) else isFalse (fun hc => by cases hc; exact h rfl)

/-- Observable effect of one run: how many registry listing calls and
channel listing calls were issued, and either the computed totals or the
fatal error. -/
structure RunTrace where
  registry_calls : Nat
  channel_calls : Nat
  outcome : Except PipelineError RunTotals
deriving DecidableEq

/-- Tail of the main program after identifier classification (source
lines 182-209): the per-asset-id on-chain loop (one registry call per
iteration), the single off-chain call, and the combination of totals.
`prior_registry_calls` counts the registry call already made by
`list_assets` in the group-key branch. -/
def finishRun (identifier : String) (id_type : String) (asset_ids : List String)
    (prior_registry_calls : Nat) (registry : List AssetRecord)
    (channels : List ChannelRecord) : RunTrace :=
  let simple := simple_balance registry asset_ids
  let offc := get_off_chain_balances channels identifier id_type
    (if id_type = "group_key" then asset_ids else [])
  { registry_calls := prior_registry_calls + asset_ids.length,
    channel_calls := 1,
    outcome := Except.ok
      { total_on_chain_balance := simple,
        total_offchain_funds := offc.1,
        total_off_chain_local_balance := offc.2.1,
        total_off_chain_remote_balance := offc.2.2,
        total_balance := simple + offc.2.1 } }

/-- The main program (source lines 166-209): classify the identifier by
length, resolve the target asset ids, then aggregate. -/
def runPipeline (identifier : String) (registry : List AssetRecord)
    (channels : List ChannelRecord) : RunTrace :=
  if identifier.length = 64 then
    finishRun identifier "asset_id" [identifier] 0 registry channels
  else if identifier.length = 66 then
    finishRun identifier "group_key" (list_assets registry identifier) 1 registry channels
  else
    { registry_calls := 0, channel_calls := 0,
      outcome := Except.error PipelineError.invalidIdentifier }

/-- The final totals report printed on success (source lines 211-216),
one string per printed line. -/
def totalsReport (t : RunTotals) : List String :=
  let a := t.total_on_chain_balance
  let b := t.total_offchain_funds
  let c := t.total_off_chain_local_balance
  let d := t.total_balance
  ["----Totals----",
   "On-chain balance: " ++ toString a,
   "Off-chain capacity: " ++ toString b,
   "Off-chain local balance: " ++ toString c,
   "Total balance: " ++ toString d]

/-- Matching condition of `get_onchain_balance` without the ownership
flag: one of the record's three key fields equals the identifier. -/
def record_matches (asset : AssetRecord) (identifier : String) : Bool :=
  optStrEq asset.asset_id identifier
  || optStrEq (asset.asset_group.bind AssetGroup.raw_group_key) identifier
  || optStrEq (asset.asset_group.bind AssetGroup.tweaked_group_key) identifier

/-- Contribution of one registry record to `get_onchain_balance` for one
identifier. -/
def onchain_contrib (identifier : String) (asset : AssetRecord) : Int :=
  if asset.script_key_is_local.getD false && record_matches asset identifier then
    asset.amount.getD 0
  else
    0

/-- The on-chain sum as the specification words it: each record's amount
is counted exactly once iff `script_key_is_local` is true and at least
one of its `asset_id`, `raw_group_key`, `tweaked_group_key` is a member
of the target set. -/
def onchain_claimed_sum (registry : List AssetRecord) (targets : List String) : Int :=
  ((registry.filter (fun asset =>
      asset.script_key_is_local.getD false
      && (optStrMem asset.asset_id targets
          || optStrMem (asset.asset_group.bind AssetGroup.raw_group_key) targets
          || optStrMem (asset.asset_group.bind AssetGroup.tweaked_group_key) targets))).map
    (fun asset => asset.amount.getD 0)).sum

/-- What the code actually computes on-chain: each locally-owned
record's amount is counted once per entry of the target list that
matches one of its three key fields. -/
def onchain_multiplicity_sum (registry : List AssetRecord) (targets : List String) : Int :=
  (registry.map (fun asset =>
    if asset.script_key_is_local.getD false then
      (targets.countP (record_matches asset) : Int) * asset.amount.getD 0
    else
      0)).sum

/-- Membership of an embedded channel asset entry in the target set, as
tested by `get_off_chain_balances`. -/
def entry_matches (targets : List String) (asset : AssetEntry) : Bool :=
  optStrMem asset.asset_id targets

/-- Capacity contribution of one embedded entry (0 when not matching or
absent). -/
def entry_capD (targets : List String) (asset : AssetEntry) : Int :=
  if entry_matches targets asset then asset.capacity.getD 0 else 0

/-- Local-balance contribution of one embedded entry. -/
def entry_localD (targets : List String) (asset : AssetEntry) : Int :=
  if entry_matches targets asset then asset.local_balance.getD 0 else 0

/-- Remote-balance contribution of one embedded entry. -/
def entry_remoteD (targets : List String) (asset : AssetEntry) : Int :=
  if entry_matches targets asset then asset.remote_balance.getD 0 else 0

/-- Capacity contribution of one channel: 0 for a channel with no
embedded per-asset data, otherwise the sum over its entries. -/
def channel_capD (targets : List String) (channel : ChannelRecord) : Int :=
  match channel.custom_channel_data with
  | none => 0
  | some custom_data => (custom_data.assets.map (entry_capD targets)).sum

/-- Local-balance contribution of one channel. -/
def channel_localD (targets : List String) (channel : ChannelRecord) : Int :=
  match channel.custom_channel_data with
  | none => 0
  | some custom_data => (custom_data.assets.map (entry_localD targets)).sum

/-- Remote-balance contribution of one channel. -/
def channel_remoteD (targets : List String) (channel : ChannelRecord) : Int :=
  match channel.custom_channel_data with
  | none => 0
  | some custom_data => (custom_data.assets.map (entry_remoteD targets)).sum

/-- Capacity sum of one channel as the specification words it: skip a
channel with no embedded per-asset data, otherwise sum the capacities of
the entries whose asset id is a member of the target set. -/
def channel_capacity_sum (targets : List String) (channel : ChannelRecord) : Int :=
  match channel.custom_channel_data with
  | none => 0
  | some custom_data =>
    ((custom_data.assets.filter (entry_matches targets)).map
      (fun a => a.capacity.getD 0)).sum

/-- Local-balance sum of one channel as the specification words it. -/
def channel_local_sum (targets : List String) (channel : ChannelRecord) : Int :=
  match channel.custom_channel_data with
  | none => 0
  | some custom_data =>
    ((custom_data.assets.filter (entry_matches targets)).map
      (fun a => a.local_balance.getD 0)).sum

/-- Remote-balance sum of one channel as the specification words it. -/
def channel_remote_sum (targets : List String) (channel : ChannelRecord) : Int :=
  match channel.custom_channel_data with
  | none => 0
  | some custom_data =>
    ((custom_data.assets.filter (entry_matches targets)).map
      (fun a => a.remote_balance.getD 0)).sum

/-- The off-chain totals as the specification words them: sum over
channels (skipping those with no embedded data) of the entry
contributions of the entries whose asset id is in the target set. -/
def offchain_spec (channels : List ChannelRecord) (targets : List String) :
    Int × Int × Int :=
  ((channels.map (channel_capacity_sum targets)).sum,
   (channels.map (channel_local_sum targets)).sum,
   (channels.map (channel_remote_sum targets)).sum)

/-- Selector of one record for `group_matched_ids`: the record's asset
id when the record carries a group object whose raw or tweaked group key
equals the group key and a present, non-empty asset id. -/
def group_match_sel (group_key : String) (asset : AssetRecord) : Option String :=
  match asset.asset_group with
  | none => none
  | some g =>
    if optStrEq g.raw_group_key group_key || optStrEq g.tweaked_group_key group_key then
      match asset.asset_id with
      | some aid => if aid = "" then none else some aid
      | none => none
    else
      none

/-- Characterization of `list_assets` as a `filterMap`: the asset id of
each record with a group object whose raw or tweaked group key equals
the group key and a present, non-empty asset id, in registry order. -/
def group_matched_ids (registry : List AssetRecord) (group_key : String) : List String :=
  registry.filterMap (group_match_sel group_key)

/-- A 64-character identifier (a well-formed asset id input). -/
def sampleAssetID : String := String.mk (List.replicate 64 'a')

/-- A 66-character identifier (a well-formed group key input). -/
def sampleGroupKey : String := String.mk (List.replicate 66 'g')

/-- A registry record locally owning 500 units of `sampleAssetID`
(the scenario of the specification's testable properties). -/
def sampleRecord : AssetRecord :=
  { asset_id := some sampleAssetID, asset_group := none,
    amount := some 500, script_key_is_local := some true }

/-- A channel carrying one embedded entry for `sampleAssetID` with
capacity 1000, local balance 300, remote balance 200. -/
def sampleChannel : ChannelRecord :=
  { custom_channel_data := some { assets :=
      [{ asset_id := some sampleAssetID, capacity := some 1000,
         local_balance := some 300, remote_balance := some 200 }] } }

/-- The totals of the sample run. -/
def sampleTotals : RunTotals :=
  { total_on_chain_balance := 500, total_offchain_funds := 1000,
    total_off_chain_local_balance := 300,
    total_off_chain_remote_balance := 200, total_balance := 800 }

/-- A registry record whose asset id is `X` and whose group object keys
equal `sampleGroupKey`. -/
def groupedRecord : AssetRecord :=
  { asset_id := some "X",
    asset_group := some { raw_group_key := some sampleGroupKey, tweaked_group_key := none },
    amount := some 5, script_key_is_local := some true }

/-- A registry record matching `sampleGroupKey` whose asset id is the
empty string. -/
def emptyIdRecord : AssetRecord :=
  { asset_id := some "",
    asset_group := some { raw_group_key := some sampleGroupKey, tweaked_group_key := none },
    amount := some 1, script_key_is_local := some true }

/-- A registry record that is locally owned, carries asset id `X` and a
raw group key `Y`: it matches both targets of `["X", "Y"]`. -/
def doubleMatchRecord : AssetRecord :=
  { asset_id := some "X",
    asset_group := some { raw_group_key := some "Y", tweaked_group_key := none },
    amount := some 5, script_key_is_local := some true }

/-- A registry record with no `script_key_is_local` field. -/
def noLocalRecord : AssetRecord :=
  { asset_id := some "X", asset_group := none,
    amount := some 7, script_key_is_local := none }

/-- An embedded channel entry with no nested asset id. -/
def noIdEntry : AssetEntry :=
  { asset_id := none, capacity := some 5, local_balance := some 6, remote_balance := some 7 }

/-- A registry record with no `amount` field. -/
def noAmountRecord : AssetRecord :=
  { asset_id := some "X", asset_group := none,
    amount := none, script_key_is_local := some true }

/-- An embedded channel entry with a matching asset id whose `capacity`
field alone is absent (local and remote balances present). -/
def noCapEntry : AssetEntry :=
  { asset_id := some "X", capacity := none,
    local_balance := some 6, remote_balance := some 7 }

/-- An embedded channel entry with a matching asset id whose
`local_balance` field alone is absent. -/
def noLocEntry : AssetEntry :=
  { asset_id := some "X", capacity := some 5,
    local_balance := none, remote_balance := some 7 }

/-- An embedded channel entry with a matching asset id whose
`remote_balance` field alone is absent. -/
def noRemEntry : AssetEntry :=
  { asset_id := some "X", capacity := some 5,
    local_balance := some 6, remote_balance := none }

/-- A registry record whose group keys differ from `sampleGroupKey`. -/
def otherGroupRecord : AssetRecord :=
  { asset_id := some "X",
    asset_group := some { raw_group_key := some "zz", tweaked_group_key := some "ww" },
    amount := some 5, script_key_is_local := some true }

theorem sum_map_zero_int {α : Type} (l : List α) :
    (l.map (fun _ => (0 : Int))).sum = 0 := by
  induction l with
  | nil => rfl
  | cons x xs ih => simp [ih]

theorem sum_map_add_int {α : Type} (g h : α → Int) (l : List α) :
    (l.map (fun x => g x + h x)).sum = (l.map g).sum + (l.map h).sum := by
  induction l with
  | nil => simp
  | cons x xs ih =>
    simp only [List.map_cons, List.sum_cons, ih]
    ring

theorem sum_map_ite_const {α : Type} (p : α → Bool) (c : Int) (l : List α) :
    (l.map (fun x => if p x then c else 0)).sum = (l.countP p : Int) * c := by
  induction l with
  | nil => simp
  | cons x xs ih =>
    by_cases h : p x = true
    · simp only [List.map_cons, List.sum_cons, List.countP_cons, h, if_true, if_pos, ih]
      push_cast
      ring
    · simp [List.countP_cons, h, ih]

theorem sum_map_ite_eq_filter {α : Type} (p : α → Bool) (v : α → Int) (l : List α) :
    (l.map (fun x => if p x then v x else 0)).sum = ((l.filter p).map v).sum := by
  induction l with
  | nil => rfl
  | cons x xs ih =>
    by_cases h : p x = true <;> simp [List.filter_cons, h, ih]

theorem list_sum_swap {α β : Type} (f : α → β → Int) (l1 : List α) (l2 : List β) :
    (l1.map (fun a => (l2.map (f a)).sum)).sum
      = (l2.map (fun b => (l1.map (fun a => f a b)).sum)).sum := by
  induction l1 with
  | nil =>
    simp only [List.map_nil, List.sum_nil]
    exact (sum_map_zero_int l2).symm
  | cons x xs ih =>
    simp only [List.map_cons, List.sum_cons, ih]
    exact (sum_map_add_int (f x) (fun b => (xs.map (fun a => f a b)).sum) l2).symm

theorem foldl_add_map {α : Type} (g : α → Int) (f : Int → α → Int)
    (hf : ∀ t a, f t a = t + g a) (l : List α) :
    ∀ c : Int, l.foldl f c = c + (l.map g).sum := by
  induction l with
  | nil => intro c; simp
  | cons x xs ih =>
    intro c
    rw [List.foldl_cons, hf, ih]
    simp [add_assoc]

theorem onchain_asset_step_eq (identifier : String) (t : Int) (asset : AssetRecord) :
    onchain_asset_step identifier t asset = t + onchain_contrib identifier asset := by
  simp only [onchain_asset_step, onchain_contrib, record_matches]
  split <;> simp_all

theorem get_onchain_balance_eq_sum (registry : List AssetRecord) (identifier : String) :
    get_onchain_balance registry identifier
      = (registry.map (onchain_contrib identifier)).sum := by
  unfold get_onchain_balance
  rw [foldl_add_map (onchain_contrib identifier) (onchain_asset_step identifier)
    (onchain_asset_step_eq identifier) registry 0]
  simp

theorem simple_balance_eq_sum (registry : List AssetRecord) (asset_ids : List String) :
    simple_balance registry asset_ids
      = (asset_ids.map (get_onchain_balance registry)).sum := by
  unfold simple_balance
  rw [foldl_add_map (get_onchain_balance registry)
    (fun acc asset_id => acc + get_onchain_balance registry asset_id)
    (fun _ _ => rfl) asset_ids 0]
  simp

theorem contrib_targets_sum (targets : List String) (asset : AssetRecord) :
    (targets.map (fun t => onchain_contrib t asset)).sum
      = (if asset.script_key_is_local.getD false then
          (targets.countP (record_matches asset) : Int) * asset.amount.getD 0
        else 0) := by
  by_cases h : asset.script_key_is_local.getD false = true
  · have he : ∀ t, onchain_contrib t asset
        = (if record_matches asset t then asset.amount.getD 0 else 0) := by
      intro t
      simp [onchain_contrib, h]
    simp only [he, h, if_true]
    exact sum_map_ite_const (record_matches asset) (asset.amount.getD 0) targets
  · have he : ∀ t, onchain_contrib t asset = 0 := by
      intro t
      simp [onchain_contrib, h]
    simp only [he, h, if_false]
    exact sum_map_zero_int targets

theorem foldl_triple_add {α : Type} (g1 g2 g3 : α → Int)
    (f : Int × Int × Int → α → Int × Int × Int)
    (hf : ∀ t a, f t a = (t.1 + g1 a, t.2.1 + g2 a, t.2.2 + g3 a)) (l : List α) :
    ∀ c : Int × Int × Int,
      l.foldl f c = (c.1 + (l.map g1).sum, c.2.1 + (l.map g2).sum, c.2.2 + (l.map g3).sum) := by
  induction l with
  | nil => intro c; simp
  | cons x xs ih =>
    intro c
    rw [List.foldl_cons, hf, ih]
    simp only [List.map_cons, List.sum_cons, Prod.mk.injEq]
    refine ⟨by ring, by ring, by ring⟩

theorem asset_entry_step_eq (targets : List String) (t : Int × Int × Int)
    (asset : AssetEntry) :
    asset_entry_step targets t asset
      = (t.1 + entry_capD targets asset, t.2.1 + entry_localD targets asset,
         t.2.2 + entry_remoteD targets asset) := by
  simp only [asset_entry_step, entry_capD, entry_localD, entry_remoteD, entry_matches]
  split <;> simp_all

theorem channel_step_eq (targets : List String) (t : Int × Int × Int)
    (channel : ChannelRecord) :
    channel_step targets t channel
      = (t.1 + channel_capD targets channel, t.2.1 + channel_localD targets channel,
         t.2.2 + channel_remoteD targets channel) := by
  unfold channel_step channel_capD channel_localD channel_remoteD
  match h : channel.custom_channel_data with
  | none => simp
  | some custom_data =>
    exact foldl_triple_add (entry_capD targets) (entry_localD targets)
      (entry_remoteD targets) (asset_entry_step targets)
      (asset_entry_step_eq targets) custom_data.assets t

theorem offchainLoop_eq_sums (channels : List ChannelRecord) (targets : List String) :
    offchainLoop channels targets
      = ((channels.map (channel_capD targets)).sum,
         (channels.map (channel_localD targets)).sum,
         (channels.map (channel_remoteD targets)).sum) := by
  unfold offchainLoop
  rw [foldl_triple_add (channel_capD targets) (channel_localD targets)
    (channel_remoteD targets) (channel_step targets) (channel_step_eq targets)
    channels (0, 0, 0)]
  simp


theorem channel_capD_eq_spec (targets : List String) :
    channel_capD targets = channel_capacity_sum targets := by
  funext channel
  unfold channel_capD channel_capacity_sum
  match channel.custom_channel_data with
  | none => rfl
  | some custom_data =>
    exact sum_map_ite_eq_filter (entry_matches targets)
      (fun a => a.capacity.getD 0) custom_data.assets

theorem channel_localD_eq_spec (targets : List String) :
    channel_localD targets = channel_local_sum targets := by
  funext channel
  unfold channel_localD channel_local_sum
  match channel.custom_channel_data with
  | none => rfl
  | some custom_data =>
    exact sum_map_ite_eq_filter (entry_matches targets)
      (fun a => a.local_balance.getD 0) custom_data.assets

theorem channel_remoteD_eq_spec (targets : List String) :
    channel_remoteD targets = channel_remote_sum targets := by
  funext channel
  unfold channel_remoteD channel_remote_sum
  match channel.custom_channel_data with
  | none => rfl
  | some custom_data =>
    exact sum_map_ite_eq_filter (entry_matches targets)
      (fun a => a.remote_balance.getD 0) custom_data.assets

theorem offchainLoop_eq_spec (channels : List ChannelRecord) (targets : List String) :
    offchainLoop channels targets = offchain_spec channels targets := by
  rw [offchainLoop_eq_sums, channel_capD_eq_spec, channel_localD_eq_spec,
    channel_remoteD_eq_spec]
  rfl

theorem optStrMem_nil (o : Option String) : optStrMem o [] = false := by
  match o with
  | none => rfl
  | some t => rfl

theorem channel_capD_nil : channel_capD [] = fun _ => 0 := by
  funext channel
  unfold channel_capD
  match channel.custom_channel_data with
  | none => rfl
  | some custom_data =>
    have he : entry_capD [] = fun _ => (0 : Int) := by
      funext a
      simp [entry_capD, entry_matches, optStrMem_nil]
    rw [he]
    exact sum_map_zero_int custom_data.assets

theorem channel_localD_nil : channel_localD [] = fun _ => 0 := by
  funext channel
  unfold channel_localD
  match channel.custom_channel_data with
  | none => rfl
  | some custom_data =>
    have he : entry_localD [] = fun _ => (0 : Int) := by
      funext a
      simp [entry_localD, entry_matches, optStrMem_nil]
    rw [he]
    exact sum_map_zero_int custom_data.assets

theorem channel_remoteD_nil : channel_remoteD [] = fun _ => 0 := by
  funext channel
  unfold channel_remoteD
  match channel.custom_channel_data with
  | none => rfl
  | some custom_data =>
    have he : entry_remoteD [] = fun _ => (0 : Int) := by
      funext a
      simp [entry_remoteD, entry_matches, optStrMem_nil]
    rw [he]
    exact sum_map_zero_int custom_data.assets

theorem offchainLoop_nil_targets (channels : List ChannelRecord) :
    offchainLoop channels [] = (0, 0, 0) := by
  rw [offchainLoop_eq_sums, channel_capD_nil, channel_localD_nil, channel_remoteD_nil,
    sum_map_zero_int channels]

theorem list_assets_step_eq (group_key : String) (acc : List String)
    (asset : AssetRecord) :
    list_assets_step group_key acc asset
      = acc ++ (group_match_sel group_key asset).toList := by
  cases hg : asset.asset_group with
  | none => simp [list_assets_step, group_match_sel, hg]
  | some g =>
    cases ha : asset.asset_id with
    | none => simp [list_assets_step, group_match_sel, hg, ha]
    | some aid =>
      by_cases hc : optStrEq g.raw_group_key group_key = true
          ∨ optStrEq g.tweaked_group_key group_key = true
      · by_cases h : aid = "" <;>
          simp [list_assets_step, group_match_sel, hg, ha, hc, h]
      · simp [list_assets_step, group_match_sel, hg, ha, hc]

theorem list_assets_foldl_from (group_key : String) (registry : List AssetRecord) :
    ∀ acc : List String,
      registry.foldl (list_assets_step group_key) acc
        = acc ++ registry.filterMap (group_match_sel group_key) := by
  induction registry with
  | nil => intro acc; simp
  | cons x xs ih =>
    intro acc
    rw [List.foldl_cons, list_assets_step_eq, ih, List.filterMap_cons]
    cases h : group_match_sel group_key x <;> simp [h]

theorem list_assets_eq_filterMap (registry : List AssetRecord) (group_key : String) :
    list_assets registry group_key = group_matched_ids registry group_key := by
  unfold list_assets group_matched_ids
  rw [list_assets_foldl_from]
  simp

theorem filterMap_none_of_all {α β : Type} (f : α → Option β) :
    ∀ l : List α, (∀ a ∈ l, f a = none) → l.filterMap f = [] := by
  intro l
  induction l with
  | nil => intro h; rfl
  | cons x xs ih =>
    intro h
    rw [List.filterMap_cons, h x (List.mem_cons_self x xs)]
    exact ih (fun a ha => h a (List.mem_cons_of_mem x ha))

theorem group_match_sel_none (identifier : String) (x : AssetRecord)
    (h1 : optStrEq (x.asset_group.bind AssetGroup.raw_group_key) identifier = false)
    (h2 : optStrEq (x.asset_group.bind AssetGroup.tweaked_group_key) identifier = false) :
    group_match_sel identifier x = none := by
  cases hg : x.asset_group with
  | none => simp [group_match_sel, hg]
  | some g =>
    rw [hg] at h1 h2
    simp at h1 h2
    simp [group_match_sel, hg, h1, h2]

theorem list_assets_nil_of_no_match (registry : List AssetRecord) (identifier : String)
    (h : ∀ a ∈ registry,
      optStrEq (a.asset_group.bind AssetGroup.raw_group_key) identifier = false
      ∧ optStrEq (a.asset_group.bind AssetGroup.tweaked_group_key) identifier = false) :
    list_assets registry identifier = [] := by
  rw [list_assets_eq_filterMap]
  unfold group_matched_ids
  exact filterMap_none_of_all (group_match_sel identifier) registry
    (fun a ha => group_match_sel_none identifier a (h a ha).1 (h a ha).2)

/-- Claim C1, counterexample: a group-key run whose key matches one
registry record issues 2 registry listing calls (one in `list_assets`
plus one per resolved asset id), not exactly one as claimed. -/
theorem claim1_counterexample :
    (runPipeline sampleGroupKey [groupedRecord] []).registry_calls = 2
    ∧ (runPipeline sampleGroupKey [groupedRecord] []).registry_calls ≠ 1 := by
  refine ⟨?_, ?_⟩ <;> decide

/-- Claim C1, amended: every run past identifier validation issues
exactly one channel-listing call, but the number of registry listing
calls is 1 for an asset-id run and 1 plus the number of resolved target
ids for a group-key run (one `get_onchain_balance` call per target). -/
theorem claim1_call_counts (identifier : String) (registry : List AssetRecord)
    (channels : List ChannelRecord) :
    (runPipeline identifier registry channels).channel_calls
      = (if identifier.length = 64 ∨ identifier.length = 66 then 1 else 0)
    ∧ (runPipeline identifier registry channels).registry_calls
      = (if identifier.length = 64 then 1
         else if identifier.length = 66 then 1 + (list_assets registry identifier).length
         else 0) := by
  by_cases h64 : identifier.length = 64
  · simp [runPipeline, finishRun, h64]
  · by_cases h66 : identifier.length = 66
    · simp [runPipeline, finishRun, h64, h66, Nat.add_comm]
    · simp [runPipeline, finishRun, h64, h66]

/-- Claim C2, counterexample: a duplicate-free target set of two ids and
one locally-owned record whose `asset_id` matches the first target and
whose `raw_group_key` matches the second: the code counts its amount
twice (10), the claimed exactly-once sum is 5. -/
theorem claim2_counterexample :
    simple_balance [doubleMatchRecord] ["X", "Y"] = 10
    ∧ onchain_claimed_sum [doubleMatchRecord] ["X", "Y"] = 5
    ∧ (["X", "Y"] : List String).Nodup := by
  refine ⟨?_, ?_, ?_⟩ <;> decide

/-- Claim C2, amended: the on-chain balance counts a record's amount
once per entry of the resolved target list that equals one of its
`asset_id`, `raw_group_key` or `tweaked_group_key`, and only when
`script_key_is_local` is true (so a non-local record contributes
nothing, and for a single-element target set each matching record is
counted exactly once). -/
theorem claim2_onchain_multiplicity (registry : List AssetRecord) (targets : List String) :
    simple_balance registry targets = onchain_multiplicity_sum registry targets := by
  rw [simple_balance_eq_sum]
  have hf : get_onchain_balance registry
      = fun t => (registry.map (onchain_contrib t)).sum :=
    funext (fun t => get_onchain_balance_eq_sum registry t)
  rw [hf, list_sum_swap (fun t asset => onchain_contrib t asset) targets registry]
  unfold onchain_multiplicity_sum
  have hg : (fun asset => (targets.map (fun t => onchain_contrib t asset)).sum)
      = (fun asset : AssetRecord =>
          if asset.script_key_is_local.getD false then
            (targets.countP (record_matches asset) : Int) * asset.amount.getD 0
          else 0) :=
    funext (fun asset => contrib_targets_sum targets asset)
  rw [hg]

/-- Claim C3: the off-chain aggregator skips channels with no embedded
per-asset data and adds each embedded entry's capacity, local balance
and remote balance to the running totals iff the entry's asset id is in
the target set, every qualifying entry contributing independently. -/
theorem claim3_offchain_aggregation (channels : List ChannelRecord) (identifier : String)
    (id_type : String) (asset_ids : List String) :
    get_off_chain_balances channels identifier id_type asset_ids
      = offchain_spec channels (if id_type = "asset_id" then [identifier] else asset_ids) := by
  unfold get_off_chain_balances
  exact offchainLoop_eq_spec channels _

/-- Claim C4: on every run that reaches the totals stage, the combined
total equals the on-chain balance plus the off-chain local balance;
capacity and remote balance are not part of the combination. -/
theorem claim4_combined_total (identifier : String) (registry : List AssetRecord)
    (channels : List ChannelRecord) (t : RunTotals)
    (h : (runPipeline identifier registry channels).outcome = Except.ok t) :
    t.total_balance = t.total_on_chain_balance + t.total_off_chain_local_balance := by
  unfold runPipeline finishRun at h
  by_cases h64 : identifier.length = 64
  · rw [if_pos h64] at h
    simp only [Except.ok.injEq] at h
    rw [← h]
  · by_cases h66 : identifier.length = 66
    · rw [if_neg h64, if_pos h66] at h
      simp only [Except.ok.injEq] at h
      rw [← h]
    · rw [if_neg h64, if_neg h66] at h
      cases h

/-- Claim C4, witness: the sample run succeeds with totals 500 on-chain,
300 off-chain local and combined total 800 = 500 + 300. -/
theorem claim4_witness : (runPipeline sampleAssetID [sampleRecord] [sampleChannel]).outcome
      = Except.ok sampleTotals
    ∧ sampleTotals.total_balance
      = sampleTotals.total_on_chain_balance + sampleTotals.total_off_chain_local_balance :=
  ⟨by decide, claim4_combined_total sampleAssetID [sampleRecord] [sampleChannel]
    sampleTotals (by decide)⟩

/-- Claim C5: an identifier whose length is neither 64 nor 66 makes the
pipeline fail with the invalid-identifier error before any registry or
channel-listing call is issued (both call counters are 0). -/
theorem claim5_invalid_identifier (identifier : String) (registry : List AssetRecord)
    (channels : List ChannelRecord)
    (h1 : identifier.length ≠ 64) (h2 : identifier.length ≠ 66) :
    runPipeline identifier registry channels
      = { registry_calls := 0, channel_calls := 0,
          outcome := Except.error PipelineError.invalidIdentifier } := by
  unfold runPipeline
  rw [if_neg h1, if_neg h2]

/-- Claim C5, witness: the 3-character identifier fails with the
invalid-identifier error and zero external calls. -/
theorem claim5_witness : ("abc".length ≠ 64) ∧ ("abc".length ≠ 66)
    ∧ runPipeline "abc" [] []
      = { registry_calls := 0, channel_calls := 0,
          outcome := Except.error PipelineError.invalidIdentifier } :=
  ⟨by decide, by decide, claim5_invalid_identifier "abc" [] [] (by decide) (by decide)⟩

/-- Claim C6, counterexample: two registry records sharing asset id `X`
under the matching group key yield the resolved collection
`["X", "X"]`, which is not duplicate-free; a matching record whose asset
id is the empty string is omitted although the claim includes the asset
id of every matching record. -/
theorem claim6_counterexample :
    list_assets [groupedRecord, groupedRecord, emptyIdRecord] sampleGroupKey = ["X", "X"]
    ∧ ¬ (list_assets [groupedRecord, groupedRecord, emptyIdRecord] sampleGroupKey).Nodup
    ∧ "" ∉ list_assets [groupedRecord, groupedRecord, emptyIdRecord] sampleGroupKey := by
  refine ⟨?_, ?_, ?_⟩ <;> decide

/-- Claim C6, amended: for a group-key identifier the resolved target
collection is the list, in registry order and possibly with duplicates,
of the `asset_id` of every record carrying a group object whose
`raw_group_key` or `tweaked_group_key` equals the identifier and a
present, non-empty `asset_id`; membership is exactly that condition. -/
theorem claim6_group_resolution (registry : List AssetRecord) (group_key : String) :
    list_assets registry group_key = group_matched_ids registry group_key
    ∧ ∀ aid : String,
        (aid ∈ list_assets registry group_key ↔
          ∃ a ∈ registry, ∃ g : AssetGroup, a.asset_group = some g
            ∧ (optStrEq g.raw_group_key group_key = true
               ∨ optStrEq g.tweaked_group_key group_key = true)
            ∧ a.asset_id = some aid ∧ aid ≠ "") := by
  refine ⟨list_assets_eq_filterMap registry group_key, ?_⟩
  intro aid
  rw [list_assets_eq_filterMap]
  unfold group_matched_ids
  rw [List.mem_filterMap]
  constructor
  · rintro ⟨a, ha, hsel⟩
    refine ⟨a, ha, ?_⟩
    unfold group_match_sel at hsel
    rcases hg : a.asset_group with _ | g
    · rw [hg] at hsel; cases hsel
    · rw [hg] at hsel
      refine ⟨g, rfl, ?_⟩
      by_cases hc : optStrEq g.raw_group_key group_key = true
          ∨ optStrEq g.tweaked_group_key group_key = true
      · refine ⟨hc, ?_⟩
        rcases hi : a.asset_id with _ | s
        · rw [hi] at hsel; simp [hc] at hsel
        · rw [hi] at hsel
          simp only [hc] at hsel
          by_cases hs : s = ""
          · simp [hs, hc] at hsel
          · simp [hs, hc] at hsel
            exact ⟨by rw [hsel], by rw [← hsel]; exact hs⟩
      · simp [hc] at hsel
  · rintro ⟨a, ha, g, hg, hc, hi, hs⟩
    refine ⟨a, ha, ?_⟩
    unfold group_match_sel
    rw [hg, hi]
    simp [hc, hs]

/-- Claim C7: a group-key identifier matching no registry record's group
fields resolves to an empty target list, and the run completes without
error with one registry call, one channel call, and all totals zero. -/
theorem claim7_empty_group (identifier : String) (registry : List AssetRecord)
    (channels : List ChannelRecord)
    (hlen : identifier.length = 66)
    (h : ∀ a ∈ registry,
      optStrEq (a.asset_group.bind AssetGroup.raw_group_key) identifier = false
      ∧ optStrEq (a.asset_group.bind AssetGroup.tweaked_group_key) identifier = false) :
    list_assets registry identifier = []
    ∧ runPipeline identifier registry channels
      = { registry_calls := 1, channel_calls := 1,
          outcome := Except.ok
            { total_on_chain_balance := 0, total_offchain_funds := 0,
              total_off_chain_local_balance := 0,
              total_off_chain_remote_balance := 0, total_balance := 0 } } := by
  have hnil : list_assets registry identifier = [] :=
    list_assets_nil_of_no_match registry identifier h
  refine ⟨hnil, ?_⟩
  have h64 : identifier.length ≠ 64 := by rw [hlen]; decide
  unfold runPipeline
  rw [if_neg h64, if_pos hlen, hnil]
  unfold finishRun
  unfold get_off_chain_balances
  simp [simple_balance, offchainLoop_nil_targets]

/-- Claim C7, witness: a group key matching no record of a one-record
registry yields an empty target list and an all-zero successful run. -/
theorem claim7_witness :
    (sampleGroupKey.length = 66)
    ∧ (∀ a ∈ [otherGroupRecord],
        optStrEq (a.asset_group.bind AssetGroup.raw_group_key) sampleGroupKey = false
        ∧ optStrEq (a.asset_group.bind AssetGroup.tweaked_group_key) sampleGroupKey = false)
    ∧ list_assets [otherGroupRecord] sampleGroupKey = []
    ∧ runPipeline sampleGroupKey [otherGroupRecord] [sampleChannel]
      = { registry_calls := 1, channel_calls := 1,
          outcome := Except.ok
            { total_on_chain_balance := 0, total_offchain_funds := 0,
              total_off_chain_local_balance := 0,
              total_off_chain_remote_balance := 0, total_balance := 0 } } := by
  refine ⟨by decide, by decide, ?_, ?_⟩
  · exact (claim7_empty_group sampleGroupKey [otherGroupRecord] [sampleChannel]
      (by decide) (by decide)).1
  · exact (claim7_empty_group sampleGroupKey [otherGroupRecord] [sampleChannel]
      (by decide) (by decide)).2

/-- Claim C8, counterexample: the sample run succeeds with an off-chain
remote balance of 200, yet the printed totals report consists of the
header, on-chain, capacity, local and combined-total lines only — no
line reports the remote balance. -/
theorem claim8_counterexample :
    (runPipeline sampleAssetID [sampleRecord] [sampleChannel]).outcome = Except.ok sampleTotals
    ∧ sampleTotals.total_off_chain_remote_balance = 200
    ∧ totalsReport sampleTotals
      = ["----Totals----", "On-chain balance: 500", "Off-chain capacity: 1000",
         "Off-chain local balance: 300", "Total balance: 800"]
    ∧ "Off-chain remote balance: 200" ∉ totalsReport sampleTotals := by
  refine ⟨by decide, by decide, by decide, by decide⟩

/-- Claim C8, amended: the final totals report contains the on-chain
balance, off-chain capacity, off-chain local balance and combined-total
lines, and is invariant under the off-chain remote balance, which is
computed in the run totals but never printed. -/
theorem claim8_report_contents (t : RunTotals) (v : Int) :
    totalsReport { t with total_off_chain_remote_balance := v } = totalsReport t
    ∧ ("On-chain balance: " ++ toString t.total_on_chain_balance) ∈ totalsReport t
    ∧ ("Off-chain capacity: " ++ toString t.total_offchain_funds) ∈ totalsReport t
    ∧ ("Off-chain local balance: " ++ toString t.total_off_chain_local_balance) ∈ totalsReport t
    ∧ ("Total balance: " ++ toString t.total_balance) ∈ totalsReport t := by
  refine ⟨rfl, ?_, ?_, ?_, ?_⟩ <;> simp [totalsReport]

/-- Claim C9: a registry record lacking the `script_key_is_local` field
is treated as not locally owned: removing it from the registry leaves
the on-chain total unchanged for every target list. -/
theorem claim9_missing_local_flag (rs1 rs2 : List AssetRecord) (a : AssetRecord)
    (targets : List String) (h : a.script_key_is_local = none) :
    simple_balance (rs1 ++ a :: rs2) targets = simple_balance (rs1 ++ rs2) targets := by
  have hc : ∀ t, onchain_contrib t a = 0 := by
    intro t
    simp [onchain_contrib, h]
  have hb : get_onchain_balance (rs1 ++ a :: rs2) = get_onchain_balance (rs1 ++ rs2) := by
    funext t
    rw [get_onchain_balance_eq_sum, get_onchain_balance_eq_sum]
    simp [hc t]
  unfold simple_balance
  rw [hb]

/-- Claim C9, witness: a record with no `script_key_is_local` field and
a matching asset id contributes nothing to the on-chain total. -/
theorem claim9_witness : noLocalRecord.script_key_is_local = none
    ∧ simple_balance ([] ++ noLocalRecord :: []) ["X"] = simple_balance ([] ++ []) ["X"] :=
  ⟨rfl, claim9_missing_local_flag [] [] noLocalRecord ["X"] rfl⟩

theorem offchainLoop_entry_drop (ids : List String) (cs1 cs2 : List ChannelRecord)
    (pre post : List AssetEntry) (e : AssetEntry)
    (hcap : entry_capD ids e = 0) (hloc : entry_localD ids e = 0)
    (hrem : entry_remoteD ids e = 0) :
    offchainLoop (cs1 ++ { custom_channel_data := some { assets := pre ++ e :: post } } :: cs2) ids
      = offchainLoop (cs1 ++ { custom_channel_data := some { assets := pre ++ post } } :: cs2) ids := by
  rw [offchainLoop_eq_sums, offchainLoop_eq_sums]
  have h1 : channel_capD ids { custom_channel_data := some { assets := pre ++ e :: post } }
      = channel_capD ids { custom_channel_data := some { assets := pre ++ post } } := by
    simp [channel_capD, hcap]
  have h2 : channel_localD ids { custom_channel_data := some { assets := pre ++ e :: post } }
      = channel_localD ids { custom_channel_data := some { assets := pre ++ post } } := by
    simp [channel_localD, hloc]
  have h3 : channel_remoteD ids { custom_channel_data := some { assets := pre ++ e :: post } }
      = channel_remoteD ids { custom_channel_data := some { assets := pre ++ post } } := by
    simp [channel_remoteD, hrem]
  simp [h1, h2, h3]

theorem offchainLoop_entry_congr (ids : List String) (cs1 cs2 : List ChannelRecord)
    (pre post : List AssetEntry) (e e2 : AssetEntry)
    (hcap : entry_capD ids e = entry_capD ids e2)
    (hloc : entry_localD ids e = entry_localD ids e2)
    (hrem : entry_remoteD ids e = entry_remoteD ids e2) :
    offchainLoop (cs1 ++ { custom_channel_data := some { assets := pre ++ e :: post } } :: cs2) ids
      = offchainLoop (cs1 ++ { custom_channel_data := some { assets := pre ++ e2 :: post } } :: cs2) ids := by
  rw [offchainLoop_eq_sums, offchainLoop_eq_sums]
  have h1 : channel_capD ids { custom_channel_data := some { assets := pre ++ e :: post } }
      = channel_capD ids { custom_channel_data := some { assets := pre ++ e2 :: post } } := by
    simp [channel_capD, hcap]
  have h2 : channel_localD ids { custom_channel_data := some { assets := pre ++ e :: post } }
      = channel_localD ids { custom_channel_data := some { assets := pre ++ e2 :: post } } := by
    simp [channel_localD, hloc]
  have h3 : channel_remoteD ids { custom_channel_data := some { assets := pre ++ e :: post } }
      = channel_remoteD ids { custom_channel_data := some { assets := pre ++ e2 :: post } } := by
    simp [channel_remoteD, hrem]
  simp [h1, h2, h3]

/-- Claim C10: an embedded channel entry with no nested asset id never
matches any target and leaves the off-chain totals unchanged (and the
fold is total, so its presence never fails); an absent `capacity`,
`local_balance` or `remote_balance` field, each individually, behaves
exactly as the value 0 while the entry's other fields still contribute;
and a registry record's absent `amount` field behaves as 0 in the
on-chain sum. -/
theorem claim10_missing_fields (ids : List String) (cs1 cs2 : List ChannelRecord)
    (pre post : List AssetEntry) (e : AssetEntry)
    (rs1 rs2 : List AssetRecord) (a : AssetRecord) (t : String) :
    (e.asset_id = none →
      offchainLoop (cs1 ++ { custom_channel_data := some { assets := pre ++ e :: post } } :: cs2) ids
        = offchainLoop (cs1 ++ { custom_channel_data := some { assets := pre ++ post } } :: cs2) ids)
    ∧ (e.capacity = none →
      offchainLoop (cs1 ++ { custom_channel_data := some { assets := pre ++ e :: post } } :: cs2) ids
        = offchainLoop (cs1 ++ { custom_channel_data := some { assets := pre ++ ({ e with capacity := some 0 }) :: post } } :: cs2) ids)
    ∧ (e.local_balance = none →
      offchainLoop (cs1 ++ { custom_channel_data := some { assets := pre ++ e :: post } } :: cs2) ids
        = offchainLoop (cs1 ++ { custom_channel_data := some { assets := pre ++ ({ e with local_balance := some 0 }) :: post } } :: cs2) ids)
    ∧ (e.remote_balance = none →
      offchainLoop (cs1 ++ { custom_channel_data := some { assets := pre ++ e :: post } } :: cs2) ids
        = offchainLoop (cs1 ++ { custom_channel_data := some { assets := pre ++ ({ e with remote_balance := some 0 }) :: post } } :: cs2) ids)
    ∧ (a.amount = none →
      get_onchain_balance (rs1 ++ a :: rs2) t
        = get_onchain_balance (rs1 ++ ({ a with amount := some 0 }) :: rs2) t) := by
  refine ⟨?_, ?_, ?_, ?_, ?_⟩
  · intro h
    refine offchainLoop_entry_drop ids cs1 cs2 pre post e ?_ ?_ ?_ <;>
      simp [entry_capD, entry_localD, entry_remoteD, entry_matches, h, optStrMem]
  · intro h
    refine offchainLoop_entry_congr ids cs1 cs2 pre post e _ ?_ ?_ ?_ <;>
      simp [entry_capD, entry_localD, entry_remoteD, entry_matches, h]
  · intro h
    refine offchainLoop_entry_congr ids cs1 cs2 pre post e _ ?_ ?_ ?_ <;>
      simp [entry_capD, entry_localD, entry_remoteD, entry_matches, h]
  · intro h
    refine offchainLoop_entry_congr ids cs1 cs2 pre post e _ ?_ ?_ ?_ <;>
      simp [entry_capD, entry_localD, entry_remoteD, entry_matches, h]
  · intro h
    have hc : ∀ s, onchain_contrib s a = onchain_contrib s ({ a with amount := some 0 }) := by
      intro s
      unfold onchain_contrib
      rw [h]
      rfl
    rw [get_onchain_balance_eq_sum, get_onchain_balance_eq_sum]
    simp [hc t]

/-- Claim C10, witness: an entry with no nested asset id leaves the
off-chain totals unchanged; entries with only `capacity`, only
`local_balance` or only `remote_balance` absent behave as if that field
were 0 (the other fields still counting); and a record with no `amount`
behaves as amount 0 in the on-chain balance. -/
theorem claim10_witness :
    (noIdEntry.asset_id = none)
    ∧ offchainLoop
        ([] ++ { custom_channel_data := some { assets := [] ++ noIdEntry :: [] } } :: []) ["X"]
      = offchainLoop
        ([] ++ { custom_channel_data := some { assets := ([] : List AssetEntry) ++ [] } } :: []) ["X"]
    ∧ (noCapEntry.capacity = none)
    ∧ offchainLoop
        ([] ++ { custom_channel_data := some { assets := [] ++ noCapEntry :: [] } } :: []) ["X"]
      = offchainLoop ([] ++ { custom_channel_data := some { assets := [] ++ ({ noCapEntry with capacity := some 0 }) :: [] } } :: []) ["X"]
    ∧ (noLocEntry.local_balance = none)
    ∧ offchainLoop
        ([] ++ { custom_channel_data := some { assets := [] ++ noLocEntry :: [] } } :: []) ["X"]
      = offchainLoop ([] ++ { custom_channel_data := some { assets := [] ++ ({ noLocEntry with local_balance := some 0 }) :: [] } } :: []) ["X"]
    ∧ (noRemEntry.remote_balance = none)
    ∧ offchainLoop
        ([] ++ { custom_channel_data := some { assets := [] ++ noRemEntry :: [] } } :: []) ["X"]
      = offchainLoop ([] ++ { custom_channel_data := some { assets := [] ++ ({ noRemEntry with remote_balance := some 0 }) :: [] } } :: []) ["X"]
    ∧ (noAmountRecord.amount = none)
    ∧ get_onchain_balance ([] ++ noAmountRecord :: []) "X"
      = get_onchain_balance ([] ++ ({ noAmountRecord with amount := some 0 }) :: []) "X" := by
  refine ⟨rfl, ?_, rfl, ?_, rfl, ?_, rfl, ?_, rfl, ?_⟩
  · exact (claim10_missing_fields ["X"] [] [] [] [] noIdEntry [] []
      noAmountRecord "X").1 rfl
  · exact (claim10_missing_fields ["X"] [] [] [] [] noCapEntry [] []
      noAmountRecord "X").2.1 rfl
  · exact (claim10_missing_fields ["X"] [] [] [] [] noLocEntry [] []
      noAmountRecord "X").2.2.1 rfl
  · exact (claim10_missing_fields ["X"] [] [] [] [] noRemEntry [] []
      noAmountRecord "X").2.2.2.1 rfl
  · exact (claim10_missing_fields ["X"] [] [] [] [] noIdEntry [] []
      noAmountRecord "X").2.2.2.2 rfl
